import Mathlib

/-!
Shallow embedding of the core of the bancho.py fork under inspection:
the redis pubsub dispatch loop (`app/redis.py`), the leaderboard placement
calculator (`app/objects/score.py`), and the performance fan-out pipeline
(`app/usecases/performance.py` and `app/adapters/omajinai.py`).

Python floats are modelled as `Rat` (the code only compares and transports
them; it never does float arithmetic on them), machine integers as `Int`/`Nat`,
and raised exceptions as the `Except` monad.
-/

/-- Classification of a Python exception as seen by the code's handlers:
`loop_pubsubs` catches `TimeoutError` specifically in its outer handler, and
everything (bare `except:`) in its inner one, so only the distinction
timeout / non-timeout is observable. -/
inductive Exc
  | timeoutError
  | other
deriving DecidableEq

/- ======================= performance pipeline ======================= -/

/-- The `ScoreParams` dataclass of `app/usecases/performance.py`. -/
structure ScoreParams where
  mode : Int
  mods : Option Int := none
  combo : Option Int := none
  acc : Option Rat := none
  nmiss : Option Int := none
  legacy_score : Option Int := none
deriving DecidableEq

/-- The `PerformanceRequest` dataclass of `app/adapters/omajinai.py`.
Fields that the use-case layer may pass as `None` are `Option`. -/
structure PerformanceRequest where
  beatmap_id : Int
  mode : Int
  mods : Option Int
  max_combo : Option Int
  accuracy : Option Rat
  miss_count : Option Int
  legacy_score : Option Int
  passed_objects : Option Int := none
deriving DecidableEq

/-- The `PerformanceResult` dataclass of `app/adapters/omajinai.py`
(also the shape of the parsed response body). -/
structure PerformanceResult where
  stars : Rat
  pp : Rat
deriving DecidableEq

/-- The query parameters actually sent by `Omajinai.__make_performance_request`:
`params` drops every `None` field of the request (modelled by keeping the
`Option`), then `params["mode"] %= 4` rewrites the mode in place.
`beatmap_id` and `mode` are always present. -/
structure QueryParams where
  beatmap_id : Int
  mode : Int
  mods : Option Int
  max_combo : Option Int
  accuracy : Option Rat
  miss_count : Option Int
  legacy_score : Option Int
  passed_objects : Option Int
deriving DecidableEq

/-- Builds the query parameters from a request, reducing `mode` modulo 4
(Python `%` on a positive modulus agrees with `Int.emod`). -/
def buildParams (req : PerformanceRequest) : QueryParams :=
  { beatmap_id := req.beatmap_id
    mode := req.mode % 4
    mods := req.mods
    max_combo := req.max_combo
    accuracy := req.accuracy
    miss_count := req.miss_count
    legacy_score := req.legacy_score
    passed_objects := req.passed_objects }

/-- One possible behaviour of the external compute service for a single GET:
the transport raises (connection failure, timeout, ...), or a response arrives
with a status code and a body. `body = some r` models a body from which
`resp.json()["data"]["stars"]` and `["pp"]` can be read; `body = none` models
a body on which that parsing raises (non-JSON, or missing keys). -/
inductive SvcResponse
  | raise
  | respond (status : Nat) (body : Option PerformanceResult)
deriving DecidableEq

/-- The external service, as a deterministic map from the parameters sent to
its behaviour. -/
abbrev Service := QueryParams → SvcResponse

/-- A response within the documented interface of the external service
(spec section 6): a success (200) response always carries the expected
JSON body. -/
def SvcResponse.wellFormed : SvcResponse → Prop
  | .respond 200 none => False
  | _ => True

/-- A transport failure, timeout, or non-success response status. -/
def SvcResponse.isFailure : SvcResponse → Prop
  | .raise => True
  | .respond status _ => status ≠ 200

/-- Translation of `Omajinai.__make_performance_request`. The `try` block
covers the GET and the status check, both of which fall back to the zero
result; `resp.json()` and the `["data"]["stars"]` / `["pp"]` accesses happen
after the `try` block, so a success-status response whose body cannot be
parsed raises out of the method. -/
def Omajinai.make_performance_request (svc : Service) (req : PerformanceRequest) :
    Except Exc PerformanceResult :=
  match svc (buildParams req) with
  | .raise => .ok ⟨0, 0⟩
  | .respond status body =>
    if status ≠ 200 then .ok ⟨0, 0⟩
    else
      match body with
      | none => .error .other
      | some pr => .ok pr

/-- Translation of `Omajinai.calculate_performance_single`: builds the
`PerformanceRequest` (with `passed_objects` left at its `None` default, as the
use-case layer never passes it) and issues it. -/
def Omajinai.calculate_performance_single (svc : Service) (beatmap_id mode : Int)
    (mods max_combo : Option Int) (accuracy : Option Rat)
    (miss_count legacy_score : Option Int) : Except Exc PerformanceResult :=
  Omajinai.make_performance_request svc
    { beatmap_id := beatmap_id
      mode := mode
      mods := mods
      max_combo := max_combo
      accuracy := accuracy
      miss_count := miss_count
      legacy_score := legacy_score
      passed_objects := none }

/-- The acc default at the top of the inner coroutine of
`calculate_performances`: `if not score.acc: score.acc = 100.0`.
Python falsiness of a `float | None` field means `None` or `0.0`. -/
def defaultAcc (score : ScoreParams) : ScoreParams :=
  if score.acc = none ∨ score.acc = some 0 then { score with acc := some 100 }
  else score

/-- The value of the dict built by the inner coroutine of
`calculate_performances` (performance.pp and difficulty.stars). -/
structure PerfOut where
  pp : Rat
  stars : Rat
deriving DecidableEq

/-- The inner coroutine `_` of `calculate_performances`: it first mutates the
caller's `ScoreParams` (the acc default), then awaits the adapter. The first
component is the state of the caller's object after the coroutine ran; the
second is the outcome of the computation. -/
def perfInner (svc : Service) (beatmap_id : Int) (score : ScoreParams) :
    ScoreParams × Except Exc PerfOut :=
  let score := defaultAcc score
  (score,
    (Omajinai.calculate_performance_single svc beatmap_id score.mode score.mods
        score.combo score.acc score.nmiss score.legacy_score).map
      fun pr => ⟨pr.pp, pr.stars⟩)

/-- `asyncio.gather` over the per-score outcomes: all coroutines run; the call
returns the results in input order, or raises if any coroutine raised. -/
def gatherResults : List (Except Exc PerfOut) → Except Exc (List PerfOut)
  | [] => .ok []
  | r :: rs =>
    match r with
    | .error e => .error e
    | .ok out =>
      match gatherResults rs with
      | .error e => .error e
      | .ok outs => .ok (out :: outs)

/-- Translation of `calculate_performances` in `app/usecases/performance.py`. -/
def calculate_performances (svc : Service) (beatmap_id : Int)
    (scores : List ScoreParams) : Except Exc (List PerfOut) :=
  gatherResults (scores.map fun s => (perfInner svc beatmap_id s).2)

/-- The state of the caller's `ScoreParams` objects after
`calculate_performances` ran: each coroutine performs its acc mutation before
its first await, so every element is mutated regardless of outcomes. -/
def calculate_performances_state (svc : Service) (beatmap_id : Int)
    (scores : List ScoreParams) : List ScoreParams :=
  scores.map fun s => (perfInner svc beatmap_id s).1

/-- The `PerformanceRequest` issued for one batch element (after the acc
default), as built by the adapter call inside the inner coroutine. -/
def scoreRequest (beatmap_id : Int) (score : ScoreParams) : PerformanceRequest :=
  let score := defaultAcc score
  { beatmap_id := beatmap_id
    mode := score.mode
    mods := score.mods
    max_combo := score.combo
    accuracy := score.acc
    miss_count := score.nmiss
    legacy_score := score.legacy_score
    passed_objects := none }

/-- All requests issued for a batch, in input order. -/
def issuedRequests (beatmap_id : Int) (scores : List ScoreParams) :
    List PerformanceRequest :=
  scores.map (scoreRequest beatmap_id)

/-- The batch constructed by the use-case `calculate_performance_single`: the
real score, followed (when `hypothetical`) by
`replace(score, combo=None, nmiss=0)`. -/
def singleBatch (score : ScoreParams) (hypothetical : Bool) : List ScoreParams :=
  if hypothetical then [score, { score with combo := none, nmiss := some 0 }]
  else [score]

/-- Translation of the use-case `calculate_performance_single` in
`app/usecases/performance.py`; an out-of-range `results[...]` access is
modelled as raising. -/
def calculate_performance_single (svc : Service) (beatmap_id : Int)
    (score : ScoreParams) (hypothetical : Bool) :
    Except Exc (Rat × Rat × Option Rat) :=
  match calculate_performances svc beatmap_id (singleBatch score hypothetical) with
  | .error e => .error e
  | .ok results =>
    match results[0]? with
    | none => .error .other
    | some real =>
      if hypothetical then
        match results[1]? with
        | none => .error .other
        | some hypo => .ok (real.pp, real.stars, some hypo.pp)
      else .ok (real.pp, real.stars, none)

/- ======================= pubsub dispatch loop ======================= -/

/-- A byte string as handed to `.decode()`: either valid UTF-8 holding `s`,
or invalid; decoding invalid bytes raises a `UnicodeDecodeError`, which is a
non-timeout exception. -/
inductive BStr
  | valid (s : String)
  | invalid
deriving DecidableEq

/-- Result of `.decode()` on a byte string. -/
def BStr.decode : BStr → Except Exc String
  | .valid s => .ok s
  | .invalid => .error .other

/-- The fields of the redis `Message` dict used by `loop_pubsubs`. -/
structure PMessage where
  channel : BStr
  data : BStr

/-- What `await pubsub.get_message(...)` does on one iteration: raises, or
returns a message or `None`. -/
inductive PollEvent
  | raised (e : Exc)
  | msg (m : Option PMessage)

/-- A registered pubsub handler, as the outcome of awaiting it on a payload. -/
abbrev Handler := String → Except Exc Unit

/-- The `app.state.pubsubs` registry with its `.get` lookup. -/
abbrev Pubsubs := String → Option Handler

/-- Record of one completed handler invocation: channel, payload, and whether
the handler returned normally (`ok = false` means it raised and the exception
was discarded). -/
structure Delivery where
  channel : String
  payload : String
  ok : Bool
deriving DecidableEq

/-- The body of one iteration of `loop_pubsubs`, without the outer
`except TimeoutError` handler: poll, decode channel and payload, look up the
handler, and invoke it inside the inner bare `except:` which swallows every
handler exception. -/
def loopBody (pubsubs : Pubsubs) : PollEvent → Except Exc (Option Delivery)
  | .raised e => .error e
  | .msg none => .ok none
  | .msg (some m) => do
    let channel ← m.channel.decode
    let payload ← m.data.decode
    match pubsubs channel with
    | none => pure none
    | some handler =>
      match handler payload with
      | .ok _ => pure (some ⟨channel, payload, true⟩)
      | .error _ => pure (some ⟨channel, payload, false⟩)

/-- One iteration of `loop_pubsubs`: the outer
`try: ... except TimeoutError: continue` turns a `TimeoutError` escaping the
body into a normal (delivery-free) iteration; any other escaping exception
propagates. -/
def loopIter (pubsubs : Pubsubs) (ev : PollEvent) : Except Exc (Option Delivery) :=
  match loopBody pubsubs ev with
  | .error .timeoutError => .ok none
  | r => r

/-- A run of the `while True` loop over a finite schedule of poll events:
the list of deliveries performed, or the first exception that escapes an
iteration (terminating the loop, so later events are not processed). -/
def loopRun (pubsubs : Pubsubs) : List PollEvent → Except Exc (List Delivery)
  | [] => .ok []
  | ev :: evs =>
    match loopIter pubsubs ev with
    | .error e => .error e
    | .ok d =>
      match loopRun pubsubs evs with
      | .error e => .error e
      | .ok ds => .ok (d.toList ++ ds)

/- ======================= ranking engine ======================= -/

/-- `SubmissionStatus.BEST` from `app/objects/score.py` (an `IntEnum`). -/
def SubmissionStatus.BEST : Nat := 2

/-- Modelled from the spec: `GameMode.RELAX_OSU` — the `app.constants.gamemodes`
module is not part of the inspected source. Per the spec, mode values encode a
base mode 0-3 plus a relax/variant multiplier, so the first relax/variant mode
value is 4 and the relax/variant subset is exactly the modes `≥ 4`. -/
def GameMode.RELAX_OSU : Nat := 4

/-- A persisted row of the `scores` table: the columns the placement query
reads. Both metric columns are modelled as `Rat` (only compared, never
computed with). -/
structure ScoreRow where
  map_md5 : String
  userid : Nat
  mode : Nat
  status : Nat
  pp : Rat
  score : Rat
deriving DecidableEq

/-- The storage visible to the placement query: the `scores` table, plus the
`users` table as a lookup on its primary key `id` (the
`INNER JOIN users u ON u.id = s.userid`), yielding the `priv` column. -/
structure DB where
  scores : List ScoreRow
  userPriv : Nat → Option Nat

/-- The in-memory `Score` fields read by `calculate_placement`:
`self.bmap.md5` (the beatmap is known), `self.mode`, `self.pp`, `self.score`. -/
structure ScoreObj where
  map_md5 : String
  mode : Nat
  pp : Rat
  score : Rat

/-- The column `s.<scoring_metric>` of a row, for the metric chosen from the
submitted score's mode (`pp` for relax/variant modes, `score` otherwise). -/
def rowMetric (mode : Nat) (r : ScoreRow) : Rat :=
  if GameMode.RELAX_OSU ≤ mode then r.pp else r.score

/-- The `:score` bind parameter of the query: `self.pp` when the mode ranks by
pp, `self.score` otherwise. -/
def selfMetric (s : ScoreObj) : Rat :=
  if GameMode.RELAX_OSU ≤ s.mode then s.pp else s.score

/-- The WHERE clause of the placement query, per joined row:
`s.map_md5 = :map_md5 AND s.mode = :mode AND s.status = 2 AND u.priv & 1
AND s.<scoring_metric> > :score`. -/
def betterRow (db : DB) (s : ScoreObj) (r : ScoreRow) : Bool :=
  decide (r.map_md5 = s.map_md5) && decide (r.mode = s.mode) &&
    decide (r.status = 2) &&
    (match db.userPriv r.userid with
     | some priv => decide (priv &&& 1 ≠ 0)
     | none => false) &&
    decide (selfMetric s < rowMetric s.mode r)

/-- Translation of `Score.calculate_placement`: `COUNT(*)` over the join,
plus one. -/
def calculate_placement (db : DB) (s : ScoreObj) : Nat :=
  db.scores.countP (betterRow db s) + 1

/-- The claim's wording of a record outranking the score: same beatmap md5,
same mode, submission status BEST, submitting user holding the leaderboard
privilege bit, and the comparison metric — pp for the relax/variant modes,
raw score for all others — strictly greater than this score's value. -/
def claimOutranks (db : DB) (s : ScoreObj) (r : ScoreRow) : Bool :=
  decide (r.map_md5 = s.map_md5) && decide (r.mode = s.mode) &&
    decide (r.status = SubmissionStatus.BEST) &&
    (match db.userPriv r.userid with
     | some priv => decide (priv &&& 1 ≠ 0)
     | none => false) &&
    (if GameMode.RELAX_OSU ≤ s.mode then decide (s.pp < r.pp)
     else decide (s.score < r.score))

/- ======================= helper lemmas ======================= -/

/-- The inner coroutine's outcome is the adapter applied to the issued request. -/
theorem perfInner_eq (svc : Service) (beatmap_id : Int) (s : ScoreParams) :
    (perfInner svc beatmap_id s).2 =
      (Omajinai.make_performance_request svc (scoreRequest beatmap_id s)).map
        fun pr => PerfOut.mk pr.pp pr.stars := rfl

/-- A failing response (transport failure or non-success status) yields the
zero result, and does not raise. -/
theorem make_request_failure (svc : Service) (req : PerformanceRequest)
    (h : (svc (buildParams req)).isFailure) :
    Omajinai.make_performance_request svc req = .ok ⟨0, 0⟩ := by
  unfold Omajinai.make_performance_request
  cases hr : svc (buildParams req) with
  | raise => rfl
  | respond status body =>
    rw [hr] at h
    simp only [SvcResponse.isFailure] at h
    simp [h]

/-- A well-formed response never makes the adapter raise. -/
theorem make_request_ok (svc : Service) (req : PerformanceRequest)
    (h : (svc (buildParams req)).wellFormed) :
    ∃ pr, Omajinai.make_performance_request svc req = .ok pr := by
  unfold Omajinai.make_performance_request
  cases hr : svc (buildParams req) with
  | raise => exact ⟨⟨0, 0⟩, rfl⟩
  | respond status body =>
    by_cases hs : status = 200
    · subst hs
      cases body with
      | none => rw [hr] at h; simp [SvcResponse.wellFormed] at h
      | some pr => exact ⟨pr, by simp⟩
    · exact ⟨⟨0, 0⟩, by simp [hs]⟩

/-- When every element of the outcome list is a success, `gatherResults`
returns them all, in order. -/
theorem gatherResults_ok (rs : List (Except Exc PerfOut))
    (h : ∀ r ∈ rs, ∃ out, r = .ok out) :
    ∃ l, gatherResults rs = .ok l ∧ l.length = rs.length ∧
      ∀ i : Nat, rs[i]? = (l[i]?).map Except.ok := by
  induction rs with
  | nil => exact ⟨[], rfl, rfl, fun i => by simp⟩
  | cons r rs ih =>
    obtain ⟨out, hout⟩ := h r (List.mem_cons_self r rs)
    obtain ⟨l, hl, hlen, hidx⟩ := ih (fun r hr => h r (List.mem_cons_of_mem _ hr))
    refine ⟨out :: l, ?_, by simp [hlen], ?_⟩
    · simp [gatherResults, hout, hl]
    · intro i
      cases i with
      | zero => simp [hout]
      | succ j => simpa using hidx j

/- ======================= C1 ======================= -/

/-- C1 counterexample: a success-status (200) response whose body cannot be
parsed makes `calculate_performances` raise instead of yielding the zero
result, so the batch is not failure-proof against every possible response of
the external service. -/
theorem calculate_performances_raises_on_malformed_success :
    calculate_performances (fun _ => .respond 200 none) 1234 [{ mode := 0 }] =
      .error .other := rfl

/-- C1 (amended): whenever every success-status response of the service carries
the expected body, `calculate_performances` never raises, and every slot whose
request met a transport failure, timeout, or non-success status holds the
zero-valued result. -/
theorem calculate_performances_failure_fallback (svc : Service) (beatmap_id : Int)
    (scores : List ScoreParams) (hwf : ∀ q, (svc q).wellFormed) :
    ∃ l, calculate_performances svc beatmap_id scores = .ok l ∧
      l.length = scores.length ∧
      ∀ (i : Nat) (s : ScoreParams), scores[i]? = some s →
        (svc (buildParams (scoreRequest beatmap_id s))).isFailure →
        l[i]? = some (⟨0, 0⟩ : PerfOut) := by
  have hok : ∀ r ∈ scores.map fun s => (perfInner svc beatmap_id s).2,
      ∃ out, r = .ok out := by
    intro r hr
    rw [List.mem_map] at hr
    obtain ⟨s, _, rfl⟩ := hr
    rw [perfInner_eq]
    obtain ⟨pr, hpr⟩ := make_request_ok svc (scoreRequest beatmap_id s)
      (hwf (buildParams (scoreRequest beatmap_id s)))
    exact ⟨⟨pr.pp, pr.stars⟩, by rw [hpr]; rfl⟩
  obtain ⟨l, hl, hlen, hidx⟩ :=
    gatherResults_ok (scores.map fun s => (perfInner svc beatmap_id s).2) hok
  refine ⟨l, hl, by simpa using hlen, ?_⟩
  intro i s hs hfail
  have hi := hidx i
  rw [List.getElem?_map, hs] at hi
  rw [Option.map_some'] at hi
  rw [perfInner_eq, make_request_failure svc _ hfail] at hi
  cases hli : l[i]? with
  | none => rw [hli] at hi; simp at hi
  | some out =>
    rw [hli] at hi
    rw [Option.map_some'] at hi
    cases hi
    rfl

/-- C1 witness: a service that always answers with status 500; the single
request's slot is the zero result and nothing is raised. -/
theorem calculate_performances_failure_fallback_witness :
    ∃ l, calculate_performances (fun _ => .respond 500 none) 1234
          [{ mode := 0 }] = .ok l ∧
      l.length = List.length [({ mode := 0 } : ScoreParams)] ∧
      ∀ (i : Nat) (s : ScoreParams), [({ mode := 0 } : ScoreParams)][i]? = some s →
        ((fun _ => SvcResponse.respond 500 none)
            (buildParams (scoreRequest 1234 s))).isFailure →
        l[i]? = some (⟨0, 0⟩ : PerfOut) :=
  calculate_performances_failure_fallback (fun _ => .respond 500 none) 1234
    [{ mode := 0 }] (fun _ => by simp [SvcResponse.wellFormed])

/- ======================= C5 ======================= -/

/-- C5: for every sequence of requests, `calculate_performances` yields exactly
one result per input, in input order — the i-th element is the outcome of the
i-th input's own computation — and the empty batch yields the empty list
(given the external service answers within its documented interface). -/
theorem calculate_performances_length_order (svc : Service) (beatmap_id : Int)
    (scores : List ScoreParams) (hwf : ∀ q, (svc q).wellFormed) :
    calculate_performances svc beatmap_id ([] : List ScoreParams) = .ok [] ∧
    ∃ l, calculate_performances svc beatmap_id scores = .ok l ∧
      l.length = scores.length ∧
      ∀ (i : Nat) (s : ScoreParams), scores[i]? = some s →
        ∃ out, l[i]? = some out ∧ (perfInner svc beatmap_id s).2 = .ok out := by
  refine ⟨rfl, ?_⟩
  have hok : ∀ r ∈ scores.map fun s => (perfInner svc beatmap_id s).2,
      ∃ out, r = .ok out := by
    intro r hr
    rw [List.mem_map] at hr
    obtain ⟨s, _, rfl⟩ := hr
    rw [perfInner_eq]
    obtain ⟨pr, hpr⟩ := make_request_ok svc (scoreRequest beatmap_id s)
      (hwf (buildParams (scoreRequest beatmap_id s)))
    exact ⟨⟨pr.pp, pr.stars⟩, by rw [hpr]; rfl⟩
  obtain ⟨l, hl, hlen, hidx⟩ :=
    gatherResults_ok (scores.map fun s => (perfInner svc beatmap_id s).2) hok
  refine ⟨l, hl, by simpa using hlen, ?_⟩
  intro i s hs
  have hi := hidx i
  rw [List.getElem?_map, hs, Option.map_some'] at hi
  cases hli : l[i]? with
  | none => rw [hli] at hi; simp at hi
  | some out =>
    rw [hli, Option.map_some'] at hi
    exact ⟨out, rfl, Option.some.inj hi⟩

/-- C5 witness: a two-element batch against a concrete healthy service. -/
theorem calculate_performances_length_order_witness :
    calculate_performances (fun _ => .respond 200 (some ⟨2, 5⟩)) 1
        ([] : List ScoreParams) = .ok [] ∧
    ∃ l, calculate_performances (fun _ => .respond 200 (some ⟨2, 5⟩)) 1
          [{ mode := 0 }, { mode := 1, acc := some 50 }] = .ok l ∧
      l.length = List.length [({ mode := 0 } : ScoreParams),
        { mode := 1, acc := some 50 }] ∧
      ∀ (i : Nat) (s : ScoreParams),
        [({ mode := 0 } : ScoreParams), { mode := 1, acc := some 50 }][i]? = some s →
        ∃ out, l[i]? = some out ∧
          (perfInner (fun _ => .respond 200 (some ⟨2, 5⟩)) 1 s).2 = .ok out :=
  calculate_performances_length_order (fun _ => .respond 200 (some ⟨2, 5⟩)) 1
    [{ mode := 0 }, { mode := 1, acc := some 50 }] (fun _ => trivial)

/- ======================= C7 ======================= -/

/-- C7: the mode query parameter actually sent to the external service is the
request's mode reduced modulo 4, and always lies in the interval [0, 4). -/
theorem mode_reduction (req : PerformanceRequest) :
    (buildParams req).mode = req.mode % 4 ∧
    0 ≤ (buildParams req).mode ∧ (buildParams req).mode < 4 :=
  ⟨rfl, Int.emod_nonneg _ (by decide), Int.emod_lt_of_pos _ (by decide)⟩

/- ======================= C8 ======================= -/

/-- C8: a falsy (`None` or `0.0`) accuracy is replaced by 100.0 before the
external request is built; a truthy accuracy is sent unchanged. -/
theorem accuracy_default (beatmap_id : Int) (score : ScoreParams) :
    ((score.acc = none ∨ score.acc = some 0) →
      (buildParams (scoreRequest beatmap_id score)).accuracy = some 100) ∧
    (∀ a : Rat, score.acc = some a → a ≠ 0 →
      (buildParams (scoreRequest beatmap_id score)).accuracy = some a) := by
  constructor
  · intro h
    simp [buildParams, scoreRequest, defaultAcc, h]
  · intro a ha hne
    simp [buildParams, scoreRequest, defaultAcc, ha, hne]

/-- C8 witness: accuracy `None` becomes 100.0; accuracy 50.0 is kept. -/
theorem accuracy_default_witness :
    (buildParams (scoreRequest 1234 { mode := 0 })).accuracy = some 100 ∧
    (buildParams (scoreRequest 1234 { mode := 0, acc := some 50 })).accuracy =
      some 50 :=
  ⟨(accuracy_default 1234 { mode := 0 }).1 (Or.inl rfl),
   (accuracy_default 1234 { mode := 0, acc := some 50 }).2 50 rfl (by norm_num)⟩

/- ======================= C10 ======================= -/

/-- C10: `calculate_performances` mutates its input — after the call, a batch
element whose acc was falsy has acc 100.0, an element with truthy acc is
untouched, and every other field of every element is unchanged. -/
theorem calculate_performances_mutation (svc : Service) (beatmap_id : Int)
    (scores : List ScoreParams) (i : Nat) (s : ScoreParams)
    (hi : scores[i]? = some s) :
    ∃ s2, (calculate_performances_state svc beatmap_id scores)[i]? = some s2 ∧
      ((s.acc = none ∨ s.acc = some 0) → s2.acc = some 100) ∧
      (¬(s.acc = none ∨ s.acc = some 0) → s2 = s) ∧
      s2.mode = s.mode ∧ s2.mods = s.mods ∧ s2.combo = s.combo ∧
      s2.nmiss = s.nmiss ∧ s2.legacy_score = s.legacy_score := by
  refine ⟨defaultAcc s, ?_, ?_, ?_, ?_, ?_, ?_, ?_, ?_⟩
  · rw [calculate_performances_state, List.getElem?_map, hi, Option.map_some']
    rfl
  · intro h; simp [defaultAcc, h]
  · intro h; simp [defaultAcc, h]
  all_goals unfold defaultAcc
  all_goals split
  all_goals rfl

/-- C10 witness: a falsy-acc element is set to 100.0 with other fields kept. -/
theorem calculate_performances_mutation_witness :
    ∃ s2, (calculate_performances_state (fun _ => .respond 200 (some ⟨2, 5⟩)) 1
        [{ mode := 3, combo := some 9 }])[0]? = some s2 ∧
      ((({ mode := 3, combo := some 9 } : ScoreParams).acc = none ∨
          ({ mode := 3, combo := some 9 } : ScoreParams).acc = some 0) →
        s2.acc = some 100) ∧
      (¬(({ mode := 3, combo := some 9 } : ScoreParams).acc = none ∨
          ({ mode := 3, combo := some 9 } : ScoreParams).acc = some 0) →
        s2 = { mode := 3, combo := some 9 }) ∧
      s2.mode = 3 ∧ s2.mods = none ∧ s2.combo = some 9 ∧
      s2.nmiss = none ∧ s2.legacy_score = none :=
  calculate_performances_mutation (fun _ => .respond 200 (some ⟨2, 5⟩)) 1
    [{ mode := 3, combo := some 9 }] 0 { mode := 3, combo := some 9 } rfl

/- ======================= C6 ======================= -/

/-- The hypothetical batch element issues the same request as the real score,
except that `max_combo` is cleared and `miss_count` forced to zero. -/
theorem scoreRequest_hypo (beatmap_id : Int) (s : ScoreParams) :
    scoreRequest beatmap_id { s with combo := none, nmiss := some 0 } =
      { scoreRequest beatmap_id s with max_combo := none, miss_count := some 0 } := by
  unfold scoreRequest defaultAcc
  by_cases h : s.acc = none ∨ s.acc = some 0 <;> simp [h]

/-- C6: with `hypothetical=True` the use-case issues exactly one additional
request, identical to the real one except `max_combo` cleared to `None` and
`miss_count` forced to 0, and returns that second request's pp as the third
tuple element; with `hypothetical=False` only the real request is issued and
the third element is `None`. -/
theorem hypothetical_fanout (svc : Service) (beatmap_id : Int)
    (score : ScoreParams) :
    issuedRequests beatmap_id (singleBatch score true) =
      [scoreRequest beatmap_id score,
        { scoreRequest beatmap_id score with
          max_combo := none, miss_count := some 0 }] ∧
    issuedRequests beatmap_id (singleBatch score false) =
      [scoreRequest beatmap_id score] ∧
    (∀ out, calculate_performance_single svc beatmap_id score true = .ok out →
      ∃ pr, Omajinai.make_performance_request svc
          { scoreRequest beatmap_id score with
            max_combo := none, miss_count := some 0 } = .ok pr ∧
        out.2.2 = some pr.pp) ∧
    (∀ out, calculate_performance_single svc beatmap_id score false = .ok out →
      out.2.2 = none) := by
  refine ⟨?_, rfl, ?_, ?_⟩
  · simp [issuedRequests, singleBatch, scoreRequest_hypo]
  · intro out hout
    have hb : calculate_performances svc beatmap_id (singleBatch score true) =
        gatherResults [(perfInner svc beatmap_id score).2,
          (perfInner svc beatmap_id
            { score with combo := none, nmiss := some 0 }).2] := rfl
    cases h0 : (perfInner svc beatmap_id score).2 with
    | error e =>
      simp [calculate_performance_single, hb, gatherResults, Except.map, h0] at hout
    | ok o0 =>
      have h1e := perfInner_eq svc beatmap_id
        { score with combo := none, nmiss := some 0 }
      cases h1 : Omajinai.make_performance_request svc
          (scoreRequest beatmap_id
            { score with combo := none, nmiss := some 0 }) with
      | error e =>
        rw [h1] at h1e
        simp [calculate_performance_single, hb, gatherResults, Except.map, h0, h1e] at hout
      | ok pr =>
        rw [h1] at h1e
        refine ⟨pr, by rw [← scoreRequest_hypo]; exact h1, ?_⟩
        simp [calculate_performance_single, hb, gatherResults, Except.map, h0, h1e] at hout
        rw [← hout]
  · intro out hout
    have hb : calculate_performances svc beatmap_id (singleBatch score false) =
        gatherResults [(perfInner svc beatmap_id score).2] := rfl
    cases h0 : (perfInner svc beatmap_id score).2 with
    | error e =>
      simp [calculate_performance_single, hb, gatherResults, Except.map, h0] at hout
    | ok o0 =>
      simp [calculate_performance_single, hb, gatherResults, Except.map, h0] at hout
      rw [← hout]

/-- C6 witness: a score with combo 150 and 3 misses against a healthy service;
the third tuple element is the pp computed for the clear-combo zero-miss
request. -/
theorem hypothetical_fanout_witness :
    ∃ pr, Omajinai.make_performance_request (fun _ => .respond 200 (some ⟨2, 5⟩))
        { scoreRequest 1234
            { mode := 0, combo := some 150, nmiss := some 3, acc := some 95 } with
          max_combo := none, miss_count := some 0 } = .ok pr ∧
      (((5 : Rat), (2 : Rat), some (5 : Rat)) : Rat × Rat × Option Rat).2.2 =
        some pr.pp :=
  (hypothetical_fanout (fun _ => .respond 200 (some ⟨2, 5⟩)) 1234
      { mode := 0, combo := some 150, nmiss := some 3, acc := some 95 }).2.2.1
    (5, 2, some 5) rfl

/- ======================= C2 ======================= -/

/-- Whether a handler invocation returned normally. -/
def handlerOk : Except Exc Unit → Bool
  | .ok _ => true
  | .error _ => false

/-- A well-formed message on a registered channel always completes its
iteration: the handler outcome, raising or not, is recorded and nothing
escapes the loop body. -/
theorem loopIter_msg (pubsubs : Pubsubs) (ch p : String) (handler : Handler)
    (hreg : pubsubs ch = some handler) :
    loopIter pubsubs (.msg (some ⟨.valid ch, .valid p⟩)) =
      .ok (some ⟨ch, p, handlerOk (handler p)⟩) := by
  have hbody : loopBody pubsubs (.msg (some ⟨.valid ch, .valid p⟩)) =
      match pubsubs ch with
      | none => .ok none
      | some handler =>
        match handler p with
        | .ok _ => .ok (some ⟨ch, p, true⟩)
        | .error _ => .ok (some ⟨ch, p, false⟩) := rfl
  unfold loopIter
  rw [hbody, hreg]
  cases hp : handler p <;> simp [hp, handlerOk]

/-- C2: every exception a handler raises is caught and discarded inside the
loop body (the iteration still completes), and after N consecutive raising
invocations the loop delivers the next message on any channel. -/
theorem dispatch_isolation (pubsubs : Pubsubs) (ch chNext : String)
    (handler handlerNext : Handler)
    (hreg : pubsubs ch = some handler)
    (hregNext : pubsubs chNext = some handlerNext)
    (hraise : ∀ p, ∃ e, handler p = .error e)
    (N : Nat) (payload payloadNext : String) :
    (∀ p, ∃ d, loopIter pubsubs (.msg (some ⟨.valid ch, .valid p⟩)) = .ok d) ∧
    loopRun pubsubs
        (List.replicate N (.msg (some ⟨.valid ch, .valid payload⟩)) ++
          [.msg (some ⟨.valid chNext, .valid payloadNext⟩)]) =
      .ok (List.replicate N ⟨ch, payload, false⟩ ++
        [⟨chNext, payloadNext, handlerOk (handlerNext payloadNext)⟩]) := by
  constructor
  · intro p
    exact ⟨some ⟨ch, p, handlerOk (handler p)⟩, loopIter_msg pubsubs ch p handler hreg⟩
  · induction N with
    | zero =>
      simp only [List.replicate, List.nil_append]
      unfold loopRun
      rw [loopIter_msg pubsubs chNext payloadNext handlerNext hregNext]
      rfl
    | succ n ih =>
      rw [List.replicate_succ, List.cons_append]
      unfold loopRun
      rw [loopIter_msg pubsubs ch payload handler hreg]
      obtain ⟨e, he⟩ := hraise payload
      rw [he]
      rw [ih]
      simp [handlerOk, List.replicate_succ]

/-- C2 witness: a registry with a channel whose handler always raises and a
healthy channel; three raising deliveries are followed by a successful one. -/
theorem dispatch_isolation_witness :
    (∀ p, ∃ d, loopIter
        (fun c => if c = "a" then some (fun _ => Except.error Exc.other)
          else if c = "b" then some (fun _ => Except.ok ()) else none)
        (.msg (some ⟨.valid "a", .valid p⟩)) = .ok d) ∧
    loopRun
        (fun c => if c = "a" then some (fun _ => Except.error Exc.other)
          else if c = "b" then some (fun _ => Except.ok ()) else none)
        (List.replicate 3 (.msg (some ⟨.valid "a", .valid "x"⟩)) ++
          [.msg (some ⟨.valid "b", .valid "y"⟩)]) =
      .ok (List.replicate 3 ⟨"a", "x", false⟩ ++
        [⟨"b", "y", handlerOk ((fun _ => Except.ok ()) "y")⟩]) :=
  dispatch_isolation
    (fun c => if c = "a" then some (fun _ => Except.error Exc.other)
      else if c = "b" then some (fun _ => Except.ok ()) else none)
    "a" "b" (fun _ => Except.error Exc.other) (fun _ => Except.ok ())
    rfl rfl (fun _ => ⟨Exc.other, rfl⟩) 3 "x" "y"

/- ======================= C9 ======================= -/

/-- C9: only handler exceptions and `TimeoutError` are swallowed by the loop:
a failure while decoding the channel or the payload bytes, or any non-timeout
exception from the poll itself, propagates out of `loop_pubsubs` and
terminates the loop (later events are not processed), while a poll
`TimeoutError` just continues with the rest of the schedule. -/
theorem loop_exception_scope (pubsubs : Pubsubs) (rest : List PollEvent)
    (b : BStr) (s : String) :
    loopRun pubsubs (.msg (some ⟨.invalid, b⟩) :: rest) = .error .other ∧
    loopRun pubsubs (.msg (some ⟨.valid s, .invalid⟩) :: rest) = .error .other ∧
    loopRun pubsubs (.raised .other :: rest) = .error .other ∧
    loopRun pubsubs (.raised .timeoutError :: rest) = loopRun pubsubs rest := by
  refine ⟨rfl, rfl, rfl, ?_⟩
  have hit : loopIter pubsubs (.raised .timeoutError) = .ok none := rfl
  have hstep : loopRun pubsubs (.raised .timeoutError :: rest) =
      match loopIter pubsubs (.raised .timeoutError) with
      | .error e => .error e
      | .ok d =>
        match loopRun pubsubs rest with
        | .error e => .error e
        | .ok ds => .ok (d.toList ++ ds) := rfl
  rw [hstep, hit]
  cases h : loopRun pubsubs rest <;> simp

/- ======================= C3 ======================= -/

/-- C3: the placement is exactly one more than the number of persisted records
satisfying the claim's filter, and is therefore an integer at least 1. -/
theorem placement_formula (db : DB) (s : ScoreObj) :
    calculate_placement db s = db.scores.countP (claimOutranks db s) + 1 ∧
    1 ≤ calculate_placement db s := by
  constructor
  · have hpred : betterRow db s = claimOutranks db s := by
      funext r
      unfold betterRow claimOutranks selfMetric rowMetric SubmissionStatus.BEST
      by_cases h : GameMode.RELAX_OSU ≤ s.mode <;> simp [h]
    rw [calculate_placement, hpred]
  · exact Nat.le_add_left 1 _

/- ======================= C4 ======================= -/

/-- Strict counting: if every `p`-element is a `q`-element and some list
element is `q` but not `p`, the `p`-count is strictly below the `q`-count. -/
theorem countP_lt_of_witness {α : Type} (l : List α) (p q : α → Bool)
    (hpq : ∀ a ∈ l, p a = true → q a = true)
    (a : α) (ha : a ∈ l) (hqa : q a = true) (hpa : p a = false) :
    l.countP p < l.countP q := by
  induction l with
  | nil => cases ha
  | cons b l ih =>
    have hmono : l.countP p ≤ l.countP q :=
      List.countP_mono_left fun x hx => hpq x (List.mem_cons_of_mem b hx)
    rcases List.mem_cons.mp ha with rfl | hmem
    · rw [List.countP_cons_of_pos q _ hqa,
        List.countP_cons_of_neg p _ (by simp [hpa])]
      exact Nat.lt_succ_of_le hmono
    · have hlt := ih (fun x hx hp => hpq x (List.mem_cons_of_mem b hx) hp) hmem
      by_cases hb : p b = true
      · have hqb := hpq b (List.mem_cons_self b l) hb
        rw [List.countP_cons_of_pos q _ hqb, List.countP_cons_of_pos p _ hb]
        omega
      · rw [List.countP_cons_of_neg p _ hb]
        by_cases hqb : q b = true
        · rw [List.countP_cons_of_pos q _ hqb]; omega
        · rw [List.countP_cons_of_neg q _ hqb]; omega

/-- C4: for two persisted BEST, privilege-eligible scores on the same beatmap
and mode, the one with the strictly greater metric value gets the strictly
smaller placement, against the same point-in-time set of records. -/
theorem placement_monotone (db : DB) (A B : ScoreObj) (rA rB : ScoreRow)
    (hmap : A.map_md5 = B.map_md5) (hmode : A.mode = B.mode)
    (hrA : rA ∈ db.scores) (hrAmap : rA.map_md5 = A.map_md5)
    (hrAmode : rA.mode = A.mode) (hrAstatus : rA.status = 2)
    (hrApriv : ∃ priv, db.userPriv rA.userid = some priv ∧ priv &&& 1 ≠ 0)
    (hrAval : rowMetric A.mode rA = selfMetric A)
    (hrB : rB ∈ db.scores) (hrBmap : rB.map_md5 = B.map_md5)
    (hrBmode : rB.mode = B.mode) (hrBstatus : rB.status = 2)
    (hrBpriv : ∃ priv, db.userPriv rB.userid = some priv ∧ priv &&& 1 ≠ 0)
    (hrBval : rowMetric B.mode rB = selfMetric B)
    (hgt : selfMetric B < selfMetric A) :
    calculate_placement db A < calculate_placement db B := by
  have key : db.scores.countP (betterRow db A) < db.scores.countP (betterRow db B) := by
    apply countP_lt_of_witness db.scores (betterRow db A) (betterRow db B)
      ?mono rA hrA ?qa ?pa
    case mono =>
      intro r hr hp
      simp only [betterRow, Bool.and_eq_true, decide_eq_true_eq] at hp ⊢
      obtain ⟨⟨⟨⟨h1, h2⟩, h3⟩, h4⟩, h5⟩ := hp
      refine ⟨⟨⟨⟨by rw [h1, hmap], by rw [h2, hmode]⟩, h3⟩, h4⟩, ?_⟩
      rw [← hmode]
      exact lt_trans hgt h5
    case qa =>
      obtain ⟨priv, hpriv, hbit⟩ := hrApriv
      simp only [betterRow, Bool.and_eq_true, decide_eq_true_eq]
      refine ⟨⟨⟨⟨by rw [hrAmap, hmap], by rw [hrAmode, hmode]⟩, hrAstatus⟩, ?_⟩, ?_⟩
      · rw [hpriv]
        simpa using hbit
      · rw [← hmode, hrAval]
        exact hgt
    case pa =>
      unfold betterRow
      rw [hrAval]
      simp
  exact Nat.add_lt_add_right key 1

/-- C4 witness: two BEST scores by privileged users on one map, mode 0
(raw-score metric): the 100-score play outranks the 50-score play. -/
theorem placement_monotone_witness :
    calculate_placement
        ⟨[⟨"m", 1, 0, 2, 0, 100⟩, ⟨"m", 2, 0, 2, 0, 50⟩], fun _ => some 1⟩
        ⟨"m", 0, 0, 100⟩ <
      calculate_placement
        ⟨[⟨"m", 1, 0, 2, 0, 100⟩, ⟨"m", 2, 0, 2, 0, 50⟩], fun _ => some 1⟩
        ⟨"m", 0, 0, 50⟩ :=
  placement_monotone
    ⟨[⟨"m", 1, 0, 2, 0, 100⟩, ⟨"m", 2, 0, 2, 0, 50⟩], fun _ => some 1⟩
    ⟨"m", 0, 0, 100⟩ ⟨"m", 0, 0, 50⟩
    ⟨"m", 1, 0, 2, 0, 100⟩ ⟨"m", 2, 0, 2, 0, 50⟩
    rfl rfl
    (List.mem_cons_self _ _) rfl rfl rfl ⟨1, rfl, by decide⟩ (by decide)
    (List.mem_cons_of_mem _ (List.mem_cons_self _ _)) rfl rfl rfl
    ⟨1, rfl, by decide⟩ (by decide)
    (by decide)
